import Mathlib

/-!
The gateway bootstrap of fastway (`main.go`).

A shallow embedding of the command-line bootstrap of the fastway gateway.
The file `main.go` declares the flag variables, builds the memory pool,
constructs the gateway, binds the client and the server listener, launches
the two serving goroutines, runs the administrative shell and stops the
gateway.

Everything the bootstrap calls lives in other packages (`slab`, `proto`,
`reuseport`, `net`, `log`, `cmd`).  Those calls are embedded as *events* of
a trace, in the order in which the main goroutine performs them, together
with the arguments they receive.  The two kinds of call whose result steers
the control flow of `main` (binding a socket, and the shell returning) take
their result from a `World`, an arbitrary deterministic environment that
may answer differently depending on everything that happened before.

Go `int` values are embedded as `Int`: `main` performs no arithmetic on
them, only the comparison `<= 0`, so no wrap-around can occur.
-/

namespace Fastway

/-! ## Data model -/

/-- Go `time.Duration`, a number of nanoseconds. -/
abbrev Duration := Int

/-- Go `time.Second`. -/
def Second : Duration := 1000000000

/-- The values of the flag variables of `main.go` after `flag.Parse()`. -/
structure Flags where
  reusePort : Bool
  maxPacketSize : Int
  memPoolType : String
  memPoolSize : Int
  memPoolFactor : Int
  memPoolMinChunk : Int
  memPoolMaxChunk : Int
  clientAddr : String
  clientMaxConn : Int
  clientBufferSize : Int
  clientSendChanSize : Int
  clientPingInterval : Duration
  serverAddr : String
  serverAuthTimeout : Int
  serverAuthKey : String
  serverBufferSize : Int
  serverSendChanSize : Int
  serverPingInterval : Duration
deriving DecidableEq, Repr

/-- The default of every flag, as written in the `var ( ... )` block. -/
def defaultFlags : Flags where
  reusePort := false
  maxPacketSize := 512 * 1024
  memPoolType := "atom"
  memPoolSize := 10 * 1024 * 1024
  memPoolFactor := 2
  memPoolMinChunk := 64
  memPoolMaxChunk := 64 * 1024
  clientAddr := ":0"
  clientMaxConn := 8
  clientBufferSize := 2 * 1024
  clientSendChanSize := 1024
  clientPingInterval := 30 * Second
  serverAddr := ":0"
  serverAuthTimeout := 3
  serverAuthKey := ""
  serverBufferSize := 64 * 1024
  serverSendChanSize := 102400
  serverPingInterval := 30 * Second

/-- A value of the interface `slab.Pool`, identified by the constructor call
that built it and the arguments that call received. -/
inductive Pool
  | syncPool (minSize maxSize factor : Int)
  | atomPool (minSize maxSize factor pageSize : Int)
  | chanPool (minSize maxSize factor pageSize : Int)
deriving DecidableEq, Repr

/-- Go `slab.NewSyncPool(minSize, maxSize, factor)`. -/
def NewSyncPool (minSize maxSize factor : Int) : Pool :=
  Pool.syncPool minSize maxSize factor

/-- Go `slab.NewAtomPool(minSize, maxSize, factor, pageSize)`. -/
def NewAtomPool (minSize maxSize factor pageSize : Int) : Pool :=
  Pool.atomPool minSize maxSize factor pageSize

/-- Go `slab.NewChanPool(minSize, maxSize, factor, pageSize)`. -/
def NewChanPool (minSize maxSize factor pageSize : Int) : Pool :=
  Pool.chanPool minSize maxSize factor pageSize

/-- The arguments a pool constructor received, in call order. -/
def Pool.args : Pool → List Int
  | Pool.syncPool a b c => [a, b, c]
  | Pool.atomPool a b c d => [a, b, c, d]
  | Pool.chanPool a b c d => [a, b, c, d]

/-- The name of the constructor that built the pool. -/
def Pool.ctor : Pool → String
  | Pool.syncPool _ _ _ => "sync"
  | Pool.atomPool _ _ _ _ => "atom"
  | Pool.chanPool _ _ _ _ => "chan"

/-- Which library call built a listener: `reuseport.NewReusablePortListener`
or `net.Listen`. -/
inductive ListenerKind
  | reusePort
  | plain
deriving DecidableEq, Repr

/-- A value of `net.Listener`: how it was built, the network and address
asked for, and the address it reports through `Addr()`. -/
structure Listener where
  kind : ListenerKind
  network : String
  addr : String
  bound : String
deriving DecidableEq, Repr

/-- What a bind attempt yields: the bound address, or the error text. -/
inductive BindResult
  | ok (bound : String)
  | err (msg : String)
deriving DecidableEq, Repr

/-- The calls of `main.go` into other packages, as the main goroutine
performs them.  `goServeClients` and `goServeServers` are the two `go`
statements: the event is the launch, with the evaluated arguments. -/
inductive Event
  | println (msg : String)
  | newPool (p : Pool)
  | newGateway (pool : Option Pool) (maxPacketSize : Int)
  | bind (kind : ListenerKind) (network addr : String) (res : BindResult)
  | logPrintf (msg : String)
  | logFatalf (msg : String)
  | goServeClients (lsn : Listener) (maxConn bufferSize sendChanSize : Int)
      (pingInterval : Duration)
  | goServeServers (lsn : Listener) (key : String)
      (authTimeout bufferSize sendChanSize : Int) (pingInterval : Duration)
  | shell (name : String)
  | shellReturned
  | stop
deriving DecidableEq, Repr

/-- The environment of the process.  `bind tr kind network addr` is the
outcome of a bind attempted after the events `tr`; `shellReturns tr` tells
whether the administrative shell started after `tr` ever returns. -/
structure World where
  bind : List Event → ListenerKind → String → String → BindResult
  shellReturns : List Event → Bool

/-- How the process ended: `main` returned, the process exited with a code
(`log.Fatalf` exits with 1), or the main goroutine stays blocked for ever. -/
inductive Outcome
  | returned
  | exit (code : Int)
  | blocked
deriving DecidableEq, Repr

/-- The result of running a piece of the program from a given trace:
either it continues with a value, or the process has ended. -/
inductive Res (α : Type)
  | ok (a : α) (tr : List Event)
  | halted (o : Outcome) (tr : List Event)

/-- A piece of the program: it reads the world and extends the trace. -/
def Proc (α : Type) : Type := World → List Event → Res α

/-- Sequencing: the second piece runs only if the first one continues. -/
def Proc.bind {α β : Type} (p : Proc α) (k : α → Proc β) : Proc β :=
  fun w tr =>
    match p w tr with
    | Res.ok a tr1 => k a w tr1
    | Res.halted o tr1 => Res.halted o tr1

/-- A piece that does nothing and yields `a`. -/
def Proc.pure {α : Type} (a : α) : Proc α :=
  fun _ tr => Res.ok a tr

instance : Monad Proc where
  pure := Proc.pure
  bind := Proc.bind

/-- Perform one call into another package. -/
def emit (e : Event) : Proc Unit :=
  fun _ tr => Res.ok () (tr ++ [e])

/-- End the process with exit code `code` (Go `os.Exit`). -/
def osExit {α : Type} (code : Int) : Proc α :=
  fun _ tr => Res.halted (Outcome.exit code) tr

/-- Ask the operating system to bind; the attempt and its result are
recorded in the trace. -/
def bindSocket (kind : ListenerKind) (network addr : String) : Proc BindResult :=
  fun w tr =>
    let r := w.bind tr kind network addr
    Res.ok r (tr ++ [Event.bind kind network addr r])

/-- Go `reuseport.NewReusablePortListener(network, addr)`: the listener and
the error, one of which is nil. -/
def NewReusablePortListener (network addr : String) :
    Proc (Option Listener × Option String) := do
  let r ← bindSocket ListenerKind.reusePort network addr
  match r with
  | BindResult.ok b => pure (some ⟨ListenerKind.reusePort, network, addr, b⟩, none)
  | BindResult.err e => pure (none, some e)

/-- Go `net.Listen(network, addr)`: the listener and the error, one of
which is nil. -/
def netListen (network addr : String) :
    Proc (Option Listener × Option String) := do
  let r ← bindSocket ListenerKind.plain network addr
  match r with
  | BindResult.ok b => pure (some ⟨ListenerKind.plain, network, addr, b⟩, none)
  | BindResult.err e => pure (none, some e)

/-- Go `log.Fatalf`: print the message, then `os.Exit(1)`. -/
def logFatalf {α : Type} (msg : String) : Proc α := do
  emit (Event.logFatalf msg)
  osExit 1

/-- Go `cmd.Shell(name)`: run the interactive shell until it returns, if it
ever does. -/
def Shell (name : String) : Proc Unit :=
  fun w tr =>
    let tr1 := tr ++ [Event.shell name]
    if w.shellReturns tr1 then Res.ok () (tr1 ++ [Event.shellReturned])
    else Res.halted Outcome.blocked tr1

/-! ## The two functions of `main.go` -/

/-- Go `listen(who, addr, reuse)`. -/
def listen (who addr : String) (reuse : Bool) : Proc Listener := do
  let (lsn, err) ←
    if reuse then NewReusablePortListener "tcp" addr
    else netListen "tcp" addr
  match err, lsn with
  | some e, _ =>
    logFatalf ("setup " ++ who ++ " listener at " ++ addr ++ " failed - " ++ e)
  | none, none =>
    -- a nil listener with a nil error: `lsn.Addr()` would dereference nil
    osExit 2
  | none, some l =>
    emit (Event.logPrintf ("setup " ++ who ++ " listener at - " ++ l.bound))
    pure l

/-- The text printed for an unknown `MemPoolType`. -/
def unsupportedPoolMsg : String :=
  "unsupported memory pool type, must be \"sync\" or \"chan\""

/-- The text printed for a `ServerSendChanSize` that is not positive. -/
def sendChanMsg : String :=
  "server send chan size must greater than zero."

/-- Go `main()`, after `flag.Parse()` has produced the flag values `f`. -/
def main (f : Flags) : Proc Unit := do
  let pool : Option Pool ←
    if f.memPoolType = "sync" then do
      let p := NewSyncPool f.memPoolMinChunk f.memPoolMaxChunk f.memPoolFactor
      emit (Event.newPool p)
      pure (some p)
    else if f.memPoolType = "atom" then do
      let p := NewAtomPool f.memPoolMinChunk f.memPoolMaxChunk f.memPoolFactor
        f.memPoolSize
      emit (Event.newPool p)
      pure (some p)
    else if f.memPoolType = "chan" then do
      let p := NewChanPool f.memPoolMinChunk f.memPoolMaxChunk f.memPoolFactor
        f.memPoolSize
      emit (Event.newPool p)
      pure (some p)
    else do
      emit (Event.println unsupportedPoolMsg)
      pure none
  if f.serverSendChanSize ≤ 0 then
    emit (Event.println sendChanMsg)
  emit (Event.newGateway pool f.maxPacketSize)
  let cl ← listen "client" f.clientAddr f.reusePort
  emit (Event.goServeClients cl f.clientMaxConn f.clientBufferSize
    f.clientSendChanSize f.clientPingInterval)
  let sl ← listen "server" f.serverAddr f.reusePort
  emit (Event.goServeServers sl f.serverAuthKey f.serverAuthTimeout
    f.serverBufferSize f.serverSendChanSize f.serverPingInterval)
  Shell "fastway"
  emit Event.stop

/-- One run of the process: the trace of calls and how the process ended. -/
structure Run where
  trace : List Event
  outcome : Outcome
deriving DecidableEq, Repr

/-- Run the process in world `w` with flag values `f`. -/
def run (w : World) (f : Flags) : Run :=
  match main f w [] with
  | Res.ok _ tr => ⟨tr, Outcome.returned⟩
  | Res.halted o tr => ⟨tr, o⟩

/-! ## Describing a run -/

/-- The kind of listener that `listen` asks for. -/
def kindOf (reuse : Bool) : ListenerKind :=
  if reuse then ListenerKind.reusePort else ListenerKind.plain

/-- The pool value `main` holds after the `switch` on `MemPoolType`. -/
def poolFor (f : Flags) : Option Pool :=
  if f.memPoolType = "sync" then
    some (Pool.syncPool f.memPoolMinChunk f.memPoolMaxChunk f.memPoolFactor)
  else if f.memPoolType = "atom" then
    some (Pool.atomPool f.memPoolMinChunk f.memPoolMaxChunk f.memPoolFactor
      f.memPoolSize)
  else if f.memPoolType = "chan" then
    some (Pool.chanPool f.memPoolMinChunk f.memPoolMaxChunk f.memPoolFactor
      f.memPoolSize)
  else none

/-- The events of the `switch` on `MemPoolType`. -/
def poolEvents (f : Flags) : List Event :=
  match poolFor f with
  | some p => [Event.newPool p]
  | none => [Event.println unsupportedPoolMsg]

/-- The events of the check of `ServerSendChanSize`. -/
def warnEvents (f : Flags) : List Event :=
  if f.serverSendChanSize ≤ 0 then [Event.println sendChanMsg] else []

/-- The events of a successful `listen`. -/
def listenOk (who addr : String) (k : ListenerKind) (b : String) : List Event :=
  [Event.bind k "tcp" addr (BindResult.ok b),
    Event.logPrintf ("setup " ++ who ++ " listener at - " ++ b)]

/-- The events of a failed `listen`. -/
def listenErr (who addr : String) (k : ListenerKind) (e : String) : List Event :=
  [Event.bind k "tcp" addr (BindResult.err e),
    Event.logFatalf ("setup " ++ who ++ " listener at " ++ addr ++ " failed - " ++ e)]

/-- The launch of `ServeClients` on a listener bound at `b`. -/
def clientLaunch (f : Flags) (b : String) : Event :=
  Event.goServeClients ⟨kindOf f.reusePort, "tcp", f.clientAddr, b⟩
    f.clientMaxConn f.clientBufferSize f.clientSendChanSize f.clientPingInterval

/-- The launch of `ServeServers` on a listener bound at `b`. -/
def serverLaunch (f : Flags) (b : String) : Event :=
  Event.goServeServers ⟨kindOf f.reusePort, "tcp", f.serverAddr, b⟩
    f.serverAuthKey f.serverAuthTimeout f.serverBufferSize f.serverSendChanSize
    f.serverPingInterval

/-- The events up to and including the construction of the gateway. -/
def setupEvents (f : Flags) : List Event :=
  poolEvents f ++ warnEvents f ++ [Event.newGateway (poolFor f) f.maxPacketSize]

/-- The events from the client bind to the launch of `ServeClients`. -/
def clientUp (f : Flags) (b : String) : List Event :=
  listenOk "client" f.clientAddr (kindOf f.reusePort) b ++ [clientLaunch f b]

/-- The events from the server bind to the launch of `ServeServers`. -/
def serverUp (f : Flags) (b : String) : List Event :=
  listenOk "server" f.serverAddr (kindOf f.reusePort) b ++ [serverLaunch f b]

/-- The event is a bind attempt that failed. -/
def Event.isBindFailure : Event → Bool
  | Event.bind _ _ _ (BindResult.err _) => true
  | _ => false

/-- The event is a bind attempt. -/
def Event.isBind : Event → Bool
  | Event.bind _ _ _ _ => true
  | _ => false

/-- The event belongs to the set-up before the gateway exists: a pool
construction or a line printed with `println`. -/
def Event.isSetup : Event → Bool
  | Event.newPool _ => true
  | Event.println _ => true
  | _ => false

/-- The process was terminated by an exit call, with whatever code. -/
def Outcome.aborted : Outcome → Bool
  | Outcome.exit _ => true
  | _ => false

/-- The trace at the end of a piece of the program. -/
def Res.trace {α : Type} : Res α → List Event
  | Res.ok _ tr => tr
  | Res.halted _ tr => tr

/-- The pool type is one of the three names the `switch` has a case for. -/
def supported (t : String) : Prop :=
  t = "sync" ∨ t = "atom" ∨ t = "chan"

instance (t : String) : Decidable (supported t) := by
  unfold supported; infer_instance

/-! ## Example worlds -/

/-- Every bind succeeds on the address asked for; the shell returns. -/
def World.allOk : World where
  bind := fun _ _ _ addr => BindResult.ok addr
  shellReturns := fun _ => true

/-- The client address cannot be bound. -/
def World.clientBusy : World where
  bind := fun tr _ _ addr =>
    if tr.any (fun e => e matches Event.bind _ _ _ _) then BindResult.ok addr
    else BindResult.err "address already in use"
  shellReturns := fun _ => true

/-- The first bind succeeds, every later one fails. -/
def World.serverBusy : World where
  bind := fun tr _ _ addr =>
    if tr.any (fun e => e matches Event.bind _ _ _ _) then
      BindResult.err "address already in use"
    else BindResult.ok addr
  shellReturns := fun _ => true

/-- Every bind succeeds, and the shell never returns. -/
def World.shellForever : World where
  bind := fun _ _ _ addr => BindResult.ok addr
  shellReturns := fun _ => false

/-- The defaults, with an unknown pool type and a send queue of size 0. -/
def flagsBogus : Flags :=
  { defaultFlags with memPoolType := "bogus", serverSendChanSize := 0 }

/-- The defaults, with the pool type `sync`. -/
def flagsSync : Flags :=
  { defaultFlags with memPoolType := "sync" }

/-- The defaults, with the flag `ReusePort` set. -/
def flagsReuse : Flags :=
  { defaultFlags with reusePort := true }

/-- The defaults, with a server send queue of size 0. -/
def flagsZeroChan : Flags :=
  { defaultFlags with serverSendChanSize := 0 }

/-! ## Basic facts about the embedding -/

/-- Sequencing, unfolded at a world and a trace. -/
theorem bind_apply {α β : Type} (p : Proc α) (k : α → Proc β) (w : World)
    (tr : List Event) :
    (p >>= k) w tr =
      match p w tr with
      | Res.ok a tr1 => k a w tr1
      | Res.halted o tr1 => Res.halted o tr1 := rfl

/-- A pure step leaves the trace as it is. -/
theorem pure_apply {α : Type} (a : α) (w : World) (tr : List Event) :
    (pure a : Proc α) w tr = Res.ok a tr := rfl

/-- What `listen` does, by the outcome of its one bind attempt. -/
theorem listen_eq (who addr : String) (reuse : Bool) (w : World)
    (tr : List Event) :
    listen who addr reuse w tr =
      match w.bind tr (kindOf reuse) "tcp" addr with
      | BindResult.ok b =>
        Res.ok ⟨kindOf reuse, "tcp", addr, b⟩
          (tr ++ [Event.bind (kindOf reuse) "tcp" addr (BindResult.ok b),
            Event.logPrintf ("setup " ++ who ++ " listener at - " ++ b)])
      | BindResult.err e =>
        Res.halted (Outcome.exit 1)
          (tr ++ [Event.bind (kindOf reuse) "tcp" addr (BindResult.err e),
            Event.logFatalf
              ("setup " ++ who ++ " listener at " ++ addr ++ " failed - " ++ e)]) := by
  cases reuse <;>
    simp only [listen, kindOf, bind_apply, pure_apply, NewReusablePortListener,
      netListen, bindSocket, logFatalf, emit, osExit, if_true, if_false,
      Bool.false_eq_true] <;>
    cases w.bind tr _ "tcp" addr <;> simp [bind_apply, pure_apply, emit, osExit]

/-- The part of `main` after the gateway is constructed, from any trace:
what it does, by what the world answers. -/
theorem tail_cases (w : World) (f : Flags) (tr : List Event) :
    ∃ r, (do
      let cl ← listen "client" f.clientAddr f.reusePort
      emit (Event.goServeClients cl f.clientMaxConn f.clientBufferSize
        f.clientSendChanSize f.clientPingInterval)
      let sl ← listen "server" f.serverAddr f.reusePort
      emit (Event.goServeServers sl f.serverAuthKey f.serverAuthTimeout
        f.serverBufferSize f.serverSendChanSize f.serverPingInterval)
      Shell "fastway"
      emit Event.stop : Proc Unit) w tr = r ∧
    ((∃ e, w.bind tr (kindOf f.reusePort) "tcp" f.clientAddr = BindResult.err e ∧
      r = Res.halted (Outcome.exit 1)
        (tr ++ listenErr "client" f.clientAddr (kindOf f.reusePort) e)) ∨
    (∃ b e, w.bind tr (kindOf f.reusePort) "tcp" f.clientAddr = BindResult.ok b ∧
      w.bind (tr ++ clientUp f b) (kindOf f.reusePort) "tcp" f.serverAddr =
        BindResult.err e ∧
      r = Res.halted (Outcome.exit 1)
        (tr ++ clientUp f b ++
          listenErr "server" f.serverAddr (kindOf f.reusePort) e)) ∨
    (∃ b c, w.bind tr (kindOf f.reusePort) "tcp" f.clientAddr = BindResult.ok b ∧
      w.bind (tr ++ clientUp f b) (kindOf f.reusePort) "tcp" f.serverAddr =
        BindResult.ok c ∧
      w.shellReturns
        (tr ++ clientUp f b ++ serverUp f c ++ [Event.shell "fastway"]) = false ∧
      r = Res.halted Outcome.blocked
        (tr ++ clientUp f b ++ serverUp f c ++ [Event.shell "fastway"])) ∨
    (∃ b c, w.bind tr (kindOf f.reusePort) "tcp" f.clientAddr = BindResult.ok b ∧
      w.bind (tr ++ clientUp f b) (kindOf f.reusePort) "tcp" f.serverAddr =
        BindResult.ok c ∧
      w.shellReturns
        (tr ++ clientUp f b ++ serverUp f c ++ [Event.shell "fastway"]) = true ∧
      r = Res.ok ()
        (tr ++ clientUp f b ++ serverUp f c ++
          [Event.shell "fastway", Event.shellReturned, Event.stop]))) := by
  refine ⟨_, rfl, ?_⟩
  simp only [bind_apply, listen_eq]
  cases h1 : w.bind tr (kindOf f.reusePort) "tcp" f.clientAddr with
  | err e =>
    left
    exact ⟨e, rfl, by simp [listenErr]⟩
  | ok b =>
    right
    simp only [emit]
    have e1 : tr ++
        [Event.bind (kindOf f.reusePort) "tcp" f.clientAddr (BindResult.ok b),
            Event.logPrintf ("setup " ++ "client" ++ " listener at - " ++ b)] ++
          [Event.goServeClients
              { kind := kindOf f.reusePort, network := "tcp", addr := f.clientAddr, bound := b }
              f.clientMaxConn f.clientBufferSize f.clientSendChanSize f.clientPingInterval] =
        tr ++ clientUp f b := by
      simp [clientUp, listenOk, clientLaunch]
    rw [e1]
    cases h2 : w.bind (tr ++ clientUp f b) (kindOf f.reusePort) "tcp" f.serverAddr with
    | err e =>
      left
      exact ⟨b, e, rfl, h2, by simp [listenErr]⟩
    | ok c =>
      right
      simp only [Shell]
      have e2 : tr ++ clientUp f b ++
          [Event.bind (kindOf f.reusePort) "tcp" f.serverAddr (BindResult.ok c),
            Event.logPrintf ("setup " ++ "server" ++ " listener at - " ++ c)] ++
          [Event.goServeServers
              { kind := kindOf f.reusePort, network := "tcp", addr := f.serverAddr, bound := c }
              f.serverAuthKey f.serverAuthTimeout f.serverBufferSize f.serverSendChanSize
              f.serverPingInterval] =
          tr ++ clientUp f b ++ serverUp f c := by
        simp [serverUp, listenOk, serverLaunch]
      rw [e2]
      cases h3 : w.shellReturns
          (tr ++ clientUp f b ++ serverUp f c ++ [Event.shell "fastway"]) with
      | true =>
        right
        exact ⟨b, c, rfl, h2, h3, by simp [h3]⟩
      | false =>
        left
        exact ⟨b, c, rfl, h2, h3, by simp [h3]⟩

/-- The part of `main` up to the construction of the gateway. -/
theorem main_eq (w : World) (f : Flags) :
    main f w [] = (do
      let cl ← listen "client" f.clientAddr f.reusePort
      emit (Event.goServeClients cl f.clientMaxConn f.clientBufferSize
        f.clientSendChanSize f.clientPingInterval)
      let sl ← listen "server" f.serverAddr f.reusePort
      emit (Event.goServeServers sl f.serverAuthKey f.serverAuthTimeout
        f.serverBufferSize f.serverSendChanSize f.serverPingInterval)
      Shell "fastway"
      emit Event.stop : Proc Unit) w (setupEvents f) := by
  unfold main
  by_cases h1 : f.memPoolType = "sync" <;> by_cases h2 : f.memPoolType = "atom" <;>
    by_cases h3 : f.memPoolType = "chan" <;> by_cases hs : f.serverSendChanSize ≤ 0 <;>
    simp [bind_apply, pure_apply, emit, setupEvents, poolEvents, poolFor, warnEvents,
      h1, h2, h3, hs, NewSyncPool, NewAtomPool, NewChanPool]

/-- The four shapes a run of `main` can take, by what the world answers. -/
theorem run_cases_world (w : World) (f : Flags) :
    (∃ e,
      w.bind (setupEvents f) (kindOf f.reusePort) "tcp" f.clientAddr =
        BindResult.err e ∧
      run w f =
        ⟨setupEvents f ++ listenErr "client" f.clientAddr (kindOf f.reusePort) e,
          Outcome.exit 1⟩) ∨
    (∃ b e,
      w.bind (setupEvents f) (kindOf f.reusePort) "tcp" f.clientAddr =
        BindResult.ok b ∧
      w.bind (setupEvents f ++ clientUp f b) (kindOf f.reusePort) "tcp"
        f.serverAddr = BindResult.err e ∧
      run w f =
        ⟨setupEvents f ++ clientUp f b ++
            listenErr "server" f.serverAddr (kindOf f.reusePort) e,
          Outcome.exit 1⟩) ∨
    (∃ b c,
      w.bind (setupEvents f) (kindOf f.reusePort) "tcp" f.clientAddr =
        BindResult.ok b ∧
      w.bind (setupEvents f ++ clientUp f b) (kindOf f.reusePort) "tcp"
        f.serverAddr = BindResult.ok c ∧
      w.shellReturns (setupEvents f ++ clientUp f b ++ serverUp f c ++
        [Event.shell "fastway"]) = false ∧
      run w f =
        ⟨setupEvents f ++ clientUp f b ++ serverUp f c ++ [Event.shell "fastway"],
          Outcome.blocked⟩) ∨
    (∃ b c,
      w.bind (setupEvents f) (kindOf f.reusePort) "tcp" f.clientAddr =
        BindResult.ok b ∧
      w.bind (setupEvents f ++ clientUp f b) (kindOf f.reusePort) "tcp"
        f.serverAddr = BindResult.ok c ∧
      w.shellReturns (setupEvents f ++ clientUp f b ++ serverUp f c ++
        [Event.shell "fastway"]) = true ∧
      run w f =
        ⟨setupEvents f ++ clientUp f b ++ serverUp f c ++
            [Event.shell "fastway", Event.shellReturned, Event.stop],
          Outcome.returned⟩) := by
  obtain ⟨r, hr, h⟩ := tail_cases w f (setupEvents f)
  unfold run
  rw [main_eq, hr]
  rcases h with ⟨e, h1, rfl⟩ | ⟨b, e, h1, h2, rfl⟩ | ⟨b, c, h1, h2, h3, rfl⟩ |
    ⟨b, c, h1, h2, h3, rfl⟩
  · exact Or.inl ⟨e, h1, rfl⟩
  · exact Or.inr (Or.inl ⟨b, e, h1, h2, rfl⟩)
  · exact Or.inr (Or.inr (Or.inl ⟨b, c, h1, h2, h3, rfl⟩))
  · exact Or.inr (Or.inr (Or.inr ⟨b, c, h1, h2, h3, rfl⟩))

/-- The four shapes a run of `main` can take. -/
theorem run_cases (w : World) (f : Flags) :
    (∃ e, run w f =
      ⟨setupEvents f ++ listenErr "client" f.clientAddr (kindOf f.reusePort) e,
        Outcome.exit 1⟩) ∨
    (∃ b e, run w f =
      ⟨setupEvents f ++ clientUp f b ++
          listenErr "server" f.serverAddr (kindOf f.reusePort) e,
        Outcome.exit 1⟩) ∨
    (∃ b c, run w f =
      ⟨setupEvents f ++ clientUp f b ++ serverUp f c ++ [Event.shell "fastway"],
        Outcome.blocked⟩) ∨
    (∃ b c, run w f =
      ⟨setupEvents f ++ clientUp f b ++ serverUp f c ++
          [Event.shell "fastway", Event.shellReturned, Event.stop],
        Outcome.returned⟩) := by
  rcases run_cases_world w f with ⟨e, -, h⟩ | ⟨b, e, -, -, h⟩ | ⟨b, c, -, -, -, h⟩ |
    ⟨b, c, -, -, -, h⟩
  · exact Or.inl ⟨e, h⟩
  · exact Or.inr (Or.inl ⟨b, e, h⟩)
  · exact Or.inr (Or.inr (Or.inl ⟨b, c, h⟩))
  · exact Or.inr (Or.inr (Or.inr ⟨b, c, h⟩))

/-- No bind is attempted before the gateway is constructed. -/
theorem setup_no_bind_failure (f : Flags) :
    (setupEvents f).any Event.isBindFailure = false := by
  unfold setupEvents poolEvents warnEvents
  cases poolFor f <;> split_ifs <;> rfl

/-- The process is ended by an exit call exactly when a bind failed. -/
theorem aborted_iff_any (w : World) (f : Flags) :
    (run w f).outcome.aborted = (run w f).trace.any Event.isBindFailure := by
  rcases run_cases w f with ⟨e, h⟩ | ⟨b, e, h⟩ | ⟨b, c, h⟩ | ⟨b, c, h⟩ <;> rw [h] <;>
    simp [List.any_append, setup_no_bind_failure, Outcome.aborted, clientUp,
      serverUp, listenOk, listenErr, clientLaunch, serverLaunch,
      Event.isBindFailure]

/-- What the events before the binds are. -/
theorem mem_setupEvents (f : Flags) (e : Event) :
    e ∈ setupEvents f ↔
      (∃ p, poolFor f = some p ∧ e = Event.newPool p) ∨
      (poolFor f = none ∧ e = Event.println unsupportedPoolMsg) ∨
      (f.serverSendChanSize ≤ 0 ∧ e = Event.println sendChanMsg) ∨
      e = Event.newGateway (poolFor f) f.maxPacketSize := by
  unfold setupEvents poolEvents warnEvents
  cases poolFor f <;> split_ifs with hs <;> simp [hs]

/-- The gateway is constructed once, in every run, on the pool of the
`switch` and the configured packet size. -/
theorem mem_trace_newGateway (w : World) (f : Flags) (p : Option Pool) (m : Int) :
    Event.newGateway p m ∈ (run w f).trace ↔
      (p = poolFor f ∧ m = f.maxPacketSize) := by
  rcases run_cases w f with ⟨e, h⟩ | ⟨b, e, h⟩ | ⟨b, c, h⟩ | ⟨b, c, h⟩ <;> rw [h] <;>
    simp [mem_setupEvents, clientUp, serverUp, listenOk, listenErr, clientLaunch,
      serverLaunch]

/-- The pools constructed in a run are the pool of the `switch`, if any. -/
theorem mem_trace_newPool (w : World) (f : Flags) (q : Pool) :
    Event.newPool q ∈ (run w f).trace ↔ poolFor f = some q := by
  rcases run_cases w f with ⟨e, h⟩ | ⟨b, e, h⟩ | ⟨b, c, h⟩ | ⟨b, c, h⟩ <;> rw [h] <;>
    simp [mem_setupEvents, clientUp, serverUp, listenOk, listenErr, clientLaunch,
      serverLaunch, eq_comm]

/-- The lines printed with `println` in a run. -/
theorem mem_trace_println (w : World) (f : Flags) (msg : String) :
    Event.println msg ∈ (run w f).trace ↔
      (poolFor f = none ∧ msg = unsupportedPoolMsg) ∨
      (f.serverSendChanSize ≤ 0 ∧ msg = sendChanMsg) := by
  rcases run_cases w f with ⟨e, h⟩ | ⟨b, e, h⟩ | ⟨b, c, h⟩ | ⟨b, c, h⟩ <;> rw [h] <;>
    simp [mem_setupEvents, clientUp, serverUp, listenOk, listenErr, clientLaunch,
      serverLaunch]

/-- Every launch of `ServeClients` in a run is the one of the flags. -/
theorem mem_trace_serveClients (w : World) (f : Flags) (e : Event)
    (he : e ∈ (run w f).trace) (hk : ∃ l a b c d, e = Event.goServeClients l a b c d) :
    ∃ b, e = clientLaunch f b ∧
      [Event.bind (kindOf f.reusePort) "tcp" f.clientAddr (BindResult.ok b),
        Event.logPrintf ("setup client listener at - " ++ b), e] <:+:
        (run w f).trace := by
  obtain ⟨l, a1, a2, a3, a4, rfl⟩ := hk
  rcases run_cases w f with ⟨e, h⟩ | ⟨b, e, h⟩ | ⟨b, c, h⟩ | ⟨b, c, h⟩ <;>
    rw [h] at he ⊢ <;>
    simp [mem_setupEvents, clientUp, serverUp, listenOk, listenErr, clientLaunch,
      serverLaunch] at he
  · obtain ⟨rfl, rfl, rfl, rfl, rfl⟩ := he
    exact ⟨b, rfl, setupEvents f, listenErr "server" f.serverAddr (kindOf f.reusePort) e,
      by simp [clientUp, listenOk, clientLaunch]⟩
  · obtain ⟨rfl, rfl, rfl, rfl, rfl⟩ := he
    exact ⟨b, rfl, setupEvents f, serverUp f c ++ [Event.shell "fastway"],
      by simp [clientUp, listenOk, clientLaunch]⟩
  · obtain ⟨rfl, rfl, rfl, rfl, rfl⟩ := he
    exact ⟨b, rfl, setupEvents f,
      serverUp f c ++ [Event.shell "fastway", Event.shellReturned, Event.stop],
      by simp [clientUp, listenOk, clientLaunch]⟩

/-- Every launch of `ServeServers` in a run is the one of the flags. -/
theorem mem_trace_serveServers (w : World) (f : Flags) (e : Event)
    (he : e ∈ (run w f).trace)
    (hk : ∃ l k a b c d, e = Event.goServeServers l k a b c d) :
    ∃ b, e = serverLaunch f b ∧
      [Event.bind (kindOf f.reusePort) "tcp" f.serverAddr (BindResult.ok b),
        Event.logPrintf ("setup server listener at - " ++ b), e] <:+:
        (run w f).trace := by
  obtain ⟨l, a0, a1, a2, a3, a4, rfl⟩ := hk
  rcases run_cases w f with ⟨e, h⟩ | ⟨b, e, h⟩ | ⟨b, c, h⟩ | ⟨b, c, h⟩ <;>
    rw [h] at he ⊢ <;>
    simp [mem_setupEvents, clientUp, serverUp, listenOk, listenErr, clientLaunch,
      serverLaunch] at he
  · obtain ⟨rfl, rfl, rfl, rfl, rfl, rfl⟩ := he
    exact ⟨c, rfl, setupEvents f ++ clientUp f b, [Event.shell "fastway"],
      by simp [serverUp, listenOk, serverLaunch]⟩
  · obtain ⟨rfl, rfl, rfl, rfl, rfl, rfl⟩ := he
    exact ⟨c, rfl, setupEvents f ++ clientUp f b,
      [Event.shell "fastway", Event.shellReturned, Event.stop],
      by simp [serverUp, listenOk, serverLaunch]⟩

/-- The `switch` leaves the pool nil exactly on an unknown type. -/
theorem poolFor_eq_none_iff (f : Flags) :
    poolFor f = none ↔ ¬ supported f.memPoolType := by
  unfold poolFor supported
  split_ifs <;> simp [*]

/-- The pool of the `switch` is built by the constructor the type names, on
the chunk sizes and the factor, and for `atom` and `chan` on the size. -/
theorem poolFor_eq_some (f : Flags) (p : Pool) (h : poolFor f = some p) :
    p.ctor = f.memPoolType ∧
    p.args = (if f.memPoolType = "sync" then
        [f.memPoolMinChunk, f.memPoolMaxChunk, f.memPoolFactor]
      else [f.memPoolMinChunk, f.memPoolMaxChunk, f.memPoolFactor, f.memPoolSize]) := by
  unfold poolFor at h
  split_ifs at h <;> cases h <;> simp [Pool.ctor, Pool.args, *]

/-- Before the gateway is constructed, only pool constructions and
`println` lines occur. -/
theorem before_gateway_isSetup (f : Flags) :
    (poolEvents f ++ warnEvents f).all Event.isSetup = true := by
  unfold poolEvents warnEvents
  cases poolFor f <;> split_ifs <;> rfl

/-- Nothing calls `Stop` before the gateway is constructed. -/
theorem stop_not_mem_setupEvents (f : Flags) : Event.stop ∉ setupEvents f := by
  simp [mem_setupEvents]

/-- The shell is not started before the gateway is constructed. -/
theorem shell_not_mem_setupEvents (f : Flags) (n : String) :
    Event.shell n ∉ setupEvents f := by
  simp [mem_setupEvents]

/-- Every bind attempted in a run is a TCP bind of the kind the flag
`ReusePort` selects. -/
theorem mem_trace_bind (w : World) (f : Flags) (k : ListenerKind) (n a : String)
    (r : BindResult) (h : Event.bind k n a r ∈ (run w f).trace) :
    k = kindOf f.reusePort ∧ n = "tcp" := by
  rcases run_cases w f with ⟨e, h1⟩ | ⟨b, e, h1⟩ | ⟨b, c, h1⟩ | ⟨b, c, h1⟩ <;>
    rw [h1] at h <;>
    simp [mem_setupEvents, clientUp, serverUp, listenOk, listenErr, clientLaunch,
      serverLaunch] at h
  · exact ⟨h.1, h.2.1⟩
  all_goals rcases h with h | h <;> exact ⟨h.1, h.2.1⟩

/-- The kind asked for is the reuse-port one exactly when `reuse` holds. -/
theorem kindOf_eq_reusePort (reuse : Bool) :
    kindOf reuse = ListenerKind.reusePort ↔ reuse = true := by
  cases reuse <;> simp [kindOf]

/-- No bind is attempted before the gateway is constructed. -/
theorem setup_all_not_bind (f : Flags) :
    (setupEvents f).all (fun e => !e.isBind) = true := by
  unfold setupEvents poolEvents warnEvents
  cases poolFor f <;> split_ifs <;> rfl

/-- The bind attempts before the gateway is constructed: none. -/
theorem setup_filter_bind (f : Flags) :
    (setupEvents f).filter Event.isBind = [] := by
  unfold setupEvents poolEvents warnEvents
  cases poolFor f <;> split_ifs <;> rfl

/-! ## The claims -/

/-- C1: start-up aborts if and only if binding a listening address fails.
`listen` returns a listener exactly when the bind succeeded, and ends the
process through `log.Fatalf` (exit code 1) exactly when the bind returned an
error; a run of `main` is ended by an exit call exactly when its trace holds
a failed bind, so neither an unknown `MemPoolType` nor a `ServerSendChanSize`
that is not positive ends the process: with both, and binds that succeed,
`main` returns. -/
theorem startup_aborts_iff_bind_fails (w : World) (f : Flags) :
    (∀ (who addr : String) (reuse : Bool) (tr : List Event),
      ((∃ l tr1, listen who addr reuse w tr = Res.ok l tr1) ↔
        ∃ b, w.bind tr (kindOf reuse) "tcp" addr = BindResult.ok b) ∧
      ((∃ tr1 m, listen who addr reuse w tr =
            Res.halted (Outcome.exit 1) (tr1 ++ [Event.logFatalf m])) ↔
        ∃ e, w.bind tr (kindOf reuse) "tcp" addr = BindResult.err e)) ∧
    ((run w f).outcome.aborted = true ↔
      ∃ e ∈ (run w f).trace, e.isBindFailure = true) ∧
    (∀ c, (run w f).outcome = Outcome.exit c → c = 1) ∧
    (¬ supported flagsBogus.memPoolType ∧ flagsBogus.serverSendChanSize ≤ 0 ∧
      (run World.allOk flagsBogus).outcome = Outcome.returned) := by
  refine ⟨?_, ?_, ?_, ?_⟩
  · intro who addr reuse tr
    rw [listen_eq]
    cases hb : w.bind tr (kindOf reuse) "tcp" addr with
    | ok b =>
      refine ⟨⟨fun _ => ⟨b, rfl⟩, fun _ => ⟨_, _, rfl⟩⟩, ?_⟩
      constructor
      · rintro ⟨tr1, m, h⟩
        cases h
      · rintro ⟨e, h⟩
        cases h
    | err e =>
      refine ⟨⟨?_, ?_⟩, ⟨fun _ => ⟨e, rfl⟩, fun _ => ?_⟩⟩
      · rintro ⟨l, tr1, h⟩
        cases h
      · rintro ⟨b, h⟩
        cases h
      · refine ⟨tr ++ [Event.bind (kindOf reuse) "tcp" addr (BindResult.err e)],
          "setup " ++ who ++ " listener at " ++ addr ++ " failed - " ++ e, ?_⟩
        simp
  · rw [aborted_iff_any, List.any_eq_true]
  · intro c hc
    rcases run_cases w f with ⟨e, h⟩ | ⟨b, e, h⟩ | ⟨b, c, h⟩ | ⟨b, c, h⟩ <;>
      rw [h] at hc <;> cases hc <;> rfl
  · decide

/-- The statement C1 when the client address cannot be bound, on an unknown
pool type and a send queue of size 0: the process is ended by an exit call,
and its trace holds the failed bind. -/
theorem startup_aborts_iff_bind_fails_witness :
    (run World.clientBusy flagsBogus).outcome = Outcome.exit 1 ∧
    ∃ e ∈ (run World.clientBusy flagsBogus).trace, e.isBindFailure = true :=
  ⟨by decide,
    (startup_aborts_iff_bind_fails World.clientBusy flagsBogus).2.1.1 (by decide)⟩

/-- C2: with `ServerSendChanSize = 0` and binds that succeed, `main` prints
that the size must be greater than zero and then launches `ServeServers`
with the send queue capacity 0 all the same. -/
theorem zero_send_chan_reaches_core :
    flagsZeroChan.serverSendChanSize = 0 ∧
    (run World.allOk flagsZeroChan).outcome = Outcome.returned ∧
    Event.println sendChanMsg ∈ (run World.allOk flagsZeroChan).trace ∧
    Event.goServeServers ⟨ListenerKind.plain, "tcp", ":0", ":0"⟩ "" 3 65536 0
      30000000000 ∈ (run World.allOk flagsZeroChan).trace := by
  decide

/-- C7: with no flag given, the maximum packet size is 512 KiB, that is
524288 bytes, and the cap of virtual connections per client is 8; these are
the values `NewGateway` and `ServeClients` receive in every run on the
defaults, and `ServeClients` does receive 8 when the binds succeed. -/
theorem defaults_reach_core (w : World) :
    defaultFlags.maxPacketSize = 524288 ∧
    (524288 : Int) = 512 * 1024 ∧
    defaultFlags.clientMaxConn = 8 ∧
    (∃ p, Event.newGateway p 524288 ∈ (run w defaultFlags).trace) ∧
    (∀ p m, Event.newGateway p m ∈ (run w defaultFlags).trace ↔
      (p = some (NewAtomPool 64 65536 2 10485760) ∧ m = 524288)) ∧
    (∀ l a b c d, Event.goServeClients l a b c d ∈ (run w defaultFlags).trace →
      a = 8) ∧
    (∃ l b c d, Event.goServeClients l 8 b c d ∈
      (run World.allOk defaultFlags).trace) := by
  have hp : poolFor defaultFlags = some (NewAtomPool 64 65536 2 10485760) := by
    decide
  refine ⟨by decide, by decide, by decide, ?_, ?_, ?_, ?_⟩
  · exact ⟨poolFor defaultFlags, (mem_trace_newGateway w _ _ _).2 ⟨rfl, by decide⟩⟩
  · intro p m
    rw [mem_trace_newGateway, hp]
    exact Iff.rfl
  · intro l a b c d h
    obtain ⟨x, hx, -⟩ := mem_trace_serveClients w _ _ h ⟨l, a, b, c, d, rfl⟩
    simp only [clientLaunch, Event.goServeClients.injEq] at hx
    rw [hx.2.1]
    decide
  · exact ⟨⟨ListenerKind.plain, "tcp", ":0", ":0"⟩, 2048, 1024, 30000000000,
      by decide⟩

/-- The statement C7 on the defaults when every bind succeeds: the cap that
`ServeClients` receives is 8. -/
theorem defaults_reach_core_witness : (8 : Int) = 8 :=
  (defaults_reach_core World.allOk).2.2.2.2.2.1
    ⟨ListenerKind.plain, "tcp", ":0", ":0"⟩ 8 2048 1024 30000000000 (by decide)

/-- C8 as stated fails: the default `ServerBufferSize` is not 100 times the
default `ClientBufferSize`. -/
theorem server_buffer_not_hundredfold :
    defaultFlags.serverBufferSize ≠ 100 * defaultFlags.clientBufferSize := by
  decide

/-- C8, amended: the default `ServerSendChanSize` is 100 times the default
`ClientSendChanSize` (102400 against 1024), and the default
`ServerBufferSize` is 32 times the default `ClientBufferSize` (65536 against
2048). -/
theorem server_defaults_ratio :
    defaultFlags.serverSendChanSize = 100 * defaultFlags.clientSendChanSize ∧
    defaultFlags.serverSendChanSize = 102400 ∧
    defaultFlags.clientSendChanSize = 1024 ∧
    defaultFlags.serverBufferSize = 32 * defaultFlags.clientBufferSize ∧
    defaultFlags.serverBufferSize = 65536 ∧
    defaultFlags.clientBufferSize = 2048 := by
  decide

/-- C3 as stated fails: with the pool type `sync` the pool constructor
receives three arguments, and `MemPoolSize` is not among them; a run with a
different `MemPoolSize` is the same run. -/
theorem sync_pool_ignores_size :
    supported flagsSync.memPoolType ∧
    (∃ p, Event.newPool p ∈ (run World.allOk flagsSync).trace ∧
      p.args ≠ [flagsSync.memPoolMinChunk, flagsSync.memPoolMaxChunk,
        flagsSync.memPoolFactor, flagsSync.memPoolSize]) ∧
    run World.allOk { flagsSync with memPoolSize := 1 } =
      run World.allOk flagsSync := by
  refine ⟨by decide, ⟨NewSyncPool 64 65536 2, by decide, by decide⟩, by decide⟩

/-- C3, amended: for every supported memory pool type exactly one pool is
constructed, by the constructor of that name; for `atom` and `chan` it
receives the minimum chunk size, the maximum chunk size, the growth factor
and `MemPoolSize`, unchanged and in this order, and for `sync` it receives
the first three only. -/
theorem pool_parameters (w : World) (f : Flags) (h : supported f.memPoolType) :
    ∃ p, (∀ q, Event.newPool q ∈ (run w f).trace ↔ q = p) ∧
      p.ctor = f.memPoolType ∧
      p.args = (if f.memPoolType = "sync" then
          [f.memPoolMinChunk, f.memPoolMaxChunk, f.memPoolFactor]
        else
          [f.memPoolMinChunk, f.memPoolMaxChunk, f.memPoolFactor, f.memPoolSize]) := by
  cases hp : poolFor f with
  | none => exact absurd h ((poolFor_eq_none_iff f).1 hp)
  | some p =>
    refine ⟨p, fun q => ?_, poolFor_eq_some f p hp⟩
    rw [mem_trace_newPool, hp]
    simp [eq_comm]

/-- The amended C3 at the defaults, whose pool type is `atom`. -/
theorem pool_parameters_witness :
    ∃ p, (∀ q, Event.newPool q ∈ (run World.allOk defaultFlags).trace ↔ q = p) ∧
      p.ctor = "atom" ∧ p.args = [64, 65536, 2, 10485760] :=
  pool_parameters World.allOk defaultFlags (by decide)

/-- C4: `main` constructs a memory pool if and only if `MemPoolType` is
`sync`, `atom` or `chan`, and then with the constructor of that name; for
every other string no pool is constructed, the unsupported-type message is
printed, and the gateway is created with the nil pool. -/
theorem pool_constructed_iff_supported (w : World) (f : Flags) :
    ((∃ p, Event.newPool p ∈ (run w f).trace) ↔
      (f.memPoolType = "sync" ∨ f.memPoolType = "atom" ∨ f.memPoolType = "chan")) ∧
    (∀ p, Event.newPool p ∈ (run w f).trace → p.ctor = f.memPoolType) ∧
    (Event.println unsupportedPoolMsg ∈ (run w f).trace ↔
      ¬ (f.memPoolType = "sync" ∨ f.memPoolType = "atom" ∨ f.memPoolType = "chan")) ∧
    (Event.newGateway none f.maxPacketSize ∈ (run w f).trace ↔
      ¬ (f.memPoolType = "sync" ∨ f.memPoolType = "atom" ∨ f.memPoolType = "chan")) := by
  have hn := poolFor_eq_none_iff f
  unfold supported at hn
  refine ⟨?_, ?_, ?_, ?_⟩
  · rw [← not_iff_not, ← hn]
    simp only [mem_trace_newPool, not_exists]
    cases poolFor f <;> simp
  · intro p hp
    exact (poolFor_eq_some f p ((mem_trace_newPool w f p).1 hp)).1
  · rw [mem_trace_println, ← hn]
    have hne : unsupportedPoolMsg ≠ sendChanMsg := by decide
    simp [hne]
  · rw [mem_trace_newGateway, ← hn]
    simp [eq_comm]

/-- The statement C4 at an unknown pool type: the message is printed and the
gateway gets the nil pool. -/
theorem pool_constructed_iff_supported_witness :
    Event.println unsupportedPoolMsg ∈ (run World.allOk flagsBogus).trace ∧
    Event.newGateway none 524288 ∈ (run World.allOk flagsBogus).trace :=
  ⟨(pool_constructed_iff_supported World.allOk flagsBogus).2.2.1.2 (by decide),
    (pool_constructed_iff_supported World.allOk flagsBogus).2.2.2.2 (by decide)⟩

/-- C5 as stated fails: the default type `atom` is neither `sync` nor
`chan`, yet `main` constructs a pool for it, with `NewAtomPool`, and does
not print the unsupported-type message. -/
theorem atom_type_is_supported :
    defaultFlags.memPoolType ≠ "sync" ∧ defaultFlags.memPoolType ≠ "chan" ∧
    Event.newPool (NewAtomPool 64 65536 2 10485760) ∈
      (run World.allOk defaultFlags).trace ∧
    Event.println unsupportedPoolMsg ∉ (run World.allOk defaultFlags).trace := by
  decide

/-- C5, amended: for every `MemPoolType` other than `sync`, `atom` and
`chan`, `main` prints the unsupported-type message and constructs no
pool. -/
theorem unknown_type_prints_and_builds_nothing (w : World) (f : Flags)
    (h1 : f.memPoolType ≠ "sync") (h2 : f.memPoolType ≠ "atom")
    (h3 : f.memPoolType ≠ "chan") :
    Event.println unsupportedPoolMsg ∈ (run w f).trace ∧
    ∀ p, Event.newPool p ∉ (run w f).trace := by
  have hn : poolFor f = none := by
    rw [poolFor_eq_none_iff]
    unfold supported
    simp [h1, h2, h3]
  refine ⟨(mem_trace_println w f _).2 (Or.inl ⟨hn, rfl⟩), fun p hp => ?_⟩
  rw [mem_trace_newPool, hn] at hp
  cases hp

/-- The amended C5 at the pool type `bogus`, with a client address that
cannot be bound. -/
theorem unknown_type_prints_and_builds_nothing_witness :
    Event.println unsupportedPoolMsg ∈ (run World.clientBusy flagsBogus).trace ∧
    ∀ p, Event.newPool p ∉ (run World.clientBusy flagsBogus).trace :=
  unknown_type_prints_and_builds_nothing World.clientBusy flagsBogus
    (by decide) (by decide) (by decide)

/-- C6: the configuration reaches the core unchanged.  In every run
`NewGateway` is called, and only with the pool of the `switch` (the pool
that was constructed, or nil when none was) and `MaxPacketSize`; every
launch of `ServeClients` receives the listener that `listen` has just bound
for the client address, then `ClientMaxConn`, `ClientBufferSize`,
`ClientSendChanSize` and `ClientPingInterval`; every launch of
`ServeServers` receives the listener just bound for the server address,
then `ServerAuthKey`, `ServerAuthTimeout`, `ServerBufferSize`,
`ServerSendChanSize` and `ServerPingInterval`; and when no bind fails both
launches take place. -/
theorem config_reaches_core_unchanged (w : World) (f : Flags) :
    (∃ p, Event.newGateway p f.maxPacketSize ∈ (run w f).trace ∧
      (∀ q, p = some q ↔ Event.newPool q ∈ (run w f).trace) ∧
      ∀ p1 m1, Event.newGateway p1 m1 ∈ (run w f).trace →
        p1 = p ∧ m1 = f.maxPacketSize) ∧
    (∀ l a b c d, Event.goServeClients l a b c d ∈ (run w f).trace →
      (a = f.clientMaxConn ∧ b = f.clientBufferSize ∧
        c = f.clientSendChanSize ∧ d = f.clientPingInterval) ∧
      (l.network = "tcp" ∧ l.addr = f.clientAddr) ∧
      [Event.bind l.kind l.network l.addr (BindResult.ok l.bound),
        Event.logPrintf ("setup client listener at - " ++ l.bound),
        Event.goServeClients l a b c d] <:+: (run w f).trace) ∧
    (∀ l k a b c d, Event.goServeServers l k a b c d ∈ (run w f).trace →
      (k = f.serverAuthKey ∧ a = f.serverAuthTimeout ∧ b = f.serverBufferSize ∧
        c = f.serverSendChanSize ∧ d = f.serverPingInterval) ∧
      (l.network = "tcp" ∧ l.addr = f.serverAddr) ∧
      [Event.bind l.kind l.network l.addr (BindResult.ok l.bound),
        Event.logPrintf ("setup server listener at - " ++ l.bound),
        Event.goServeServers l k a b c d] <:+: (run w f).trace) ∧
    ((∀ e ∈ (run w f).trace, e.isBindFailure = false) →
      (∃ l, Event.goServeClients l f.clientMaxConn f.clientBufferSize
        f.clientSendChanSize f.clientPingInterval ∈ (run w f).trace) ∧
      (∃ l, Event.goServeServers l f.serverAuthKey f.serverAuthTimeout
        f.serverBufferSize f.serverSendChanSize f.serverPingInterval ∈
        (run w f).trace)) := by
  refine ⟨⟨poolFor f, (mem_trace_newGateway w f _ _).2 ⟨rfl, rfl⟩, fun q => ?_,
    fun p1 m1 h => (mem_trace_newGateway w f _ _).1 h⟩, ?_, ?_, ?_⟩
  · rw [mem_trace_newPool]
  · intro l a b c d h
    obtain ⟨x, hx, hi⟩ := mem_trace_serveClients w f _ h ⟨l, a, b, c, d, rfl⟩
    simp only [clientLaunch, Event.goServeClients.injEq] at hx
    obtain ⟨rfl, rfl, rfl, rfl, rfl⟩ := hx
    exact ⟨⟨rfl, rfl, rfl, rfl⟩, ⟨rfl, rfl⟩, hi⟩
  · intro l k a b c d h
    obtain ⟨x, hx, hi⟩ := mem_trace_serveServers w f _ h ⟨l, k, a, b, c, d, rfl⟩
    simp only [serverLaunch, Event.goServeServers.injEq] at hx
    obtain ⟨rfl, rfl, rfl, rfl, rfl, rfl⟩ := hx
    exact ⟨⟨rfl, rfl, rfl, rfl, rfl⟩, ⟨rfl, rfl⟩, hi⟩
  · intro hok
    have ha : (run w f).outcome.aborted = false := by
      rw [aborted_iff_any, List.any_eq_false]
      intro e he
      simp [hok e he]
    rcases run_cases w f with ⟨e, h⟩ | ⟨b, e, h⟩ | ⟨b, c, h⟩ | ⟨b, c, h⟩ <;>
      rw [h] at ha ⊢
    · cases ha
    · cases ha
    · exact ⟨⟨⟨kindOf f.reusePort, "tcp", f.clientAddr, b⟩,
          by simp [clientUp, clientLaunch]⟩,
        ⟨⟨kindOf f.reusePort, "tcp", f.serverAddr, c⟩,
          by simp [serverUp, serverLaunch]⟩⟩
    · exact ⟨⟨⟨kindOf f.reusePort, "tcp", f.clientAddr, b⟩,
          by simp [clientUp, clientLaunch]⟩,
        ⟨⟨kindOf f.reusePort, "tcp", f.serverAddr, c⟩,
          by simp [serverUp, serverLaunch]⟩⟩

/-- The statement C6 on the defaults when every bind succeeds: both launches
take place, on the configured values. -/
theorem config_reaches_core_unchanged_witness :
    (∃ l, Event.goServeClients l 8 2048 1024 30000000000 ∈
      (run World.allOk defaultFlags).trace) ∧
    (∃ l, Event.goServeServers l "" 3 65536 102400 30000000000 ∈
      (run World.allOk defaultFlags).trace) :=
  (config_reaches_core_unchanged World.allOk defaultFlags).2.2.2 (by decide)

/-- C9: the order of the effects.  In every run in which no bind fails the
trace is: pool construction and `println` lines only, then the gateway
constructed, the client listener bound (and logged), `ServeClients`
launched, the server listener bound (and logged), `ServeServers` launched,
the shell started, and, exactly when the world lets the shell return, the
return of the shell and `Stop`, at which point `main` returns; so when the
shell returns `Stop` is called exactly once.  In a world where every bind
succeeds and the shell returns, `main` returns and has called `Stop` exactly
once.  In every run `Stop` is called at most once, it is called exactly when
`main` returns, and then it is the last event, right after the return of the
shell.  If a bind fails, the shell is never started and `Stop` is never
called. -/
theorem effects_in_order (w : World) (f : Flags) :
    ((∀ e ∈ (run w f).trace, e.isBindFailure = false) →
      ∃ pre p b c mid,
        pre.all Event.isSetup = true ∧
        mid = pre ++
          [Event.newGateway p f.maxPacketSize,
            Event.bind (kindOf f.reusePort) "tcp" f.clientAddr (BindResult.ok b),
            Event.logPrintf ("setup client listener at - " ++ b),
            Event.goServeClients ⟨kindOf f.reusePort, "tcp", f.clientAddr, b⟩
              f.clientMaxConn f.clientBufferSize f.clientSendChanSize
              f.clientPingInterval,
            Event.bind (kindOf f.reusePort) "tcp" f.serverAddr (BindResult.ok c),
            Event.logPrintf ("setup server listener at - " ++ c),
            Event.goServeServers ⟨kindOf f.reusePort, "tcp", f.serverAddr, c⟩
              f.serverAuthKey f.serverAuthTimeout f.serverBufferSize
              f.serverSendChanSize f.serverPingInterval,
            Event.shell "fastway"] ∧
        (run w f).trace = mid ++
          (if w.shellReturns mid = true then [Event.shellReturned, Event.stop]
          else []) ∧
        (run w f).outcome =
          (if w.shellReturns mid = true then Outcome.returned
          else Outcome.blocked) ∧
        (w.shellReturns mid = true → (run w f).trace.count Event.stop = 1)) ∧
    ((∀ tr k n a, ∃ b, w.bind tr k n a = BindResult.ok b) →
      (∀ tr, w.shellReturns tr = true) →
      (run w f).outcome = Outcome.returned ∧
      (run w f).trace.count Event.stop = 1 ∧
      ∃ pre, (run w f).trace =
        pre ++ [Event.shell "fastway", Event.shellReturned, Event.stop]) ∧
    (run w f).trace.count Event.stop ≤ 1 ∧
    (Event.stop ∈ (run w f).trace ↔ (run w f).outcome = Outcome.returned) ∧
    (Event.stop ∈ (run w f).trace →
      (run w f).trace.count Event.stop = 1 ∧
      ∃ pre, (run w f).trace =
          pre ++ [Event.shell "fastway", Event.shellReturned, Event.stop] ∧
        Event.stop ∉ pre) ∧
    ((∃ e ∈ (run w f).trace, e.isBindFailure = true) →
      (∀ n, Event.shell n ∉ (run w f).trace) ∧
      Event.stop ∉ (run w f).trace) := by
  have hc0 : (setupEvents f).count Event.stop = 0 :=
    List.count_eq_zero.2 (stop_not_mem_setupEvents f)
  have hab := aborted_iff_any w f
  have hmid : ∀ b c, setupEvents f ++ clientUp f b ++ serverUp f c ++
      [Event.shell "fastway"] =
      (poolEvents f ++ warnEvents f) ++
        [Event.newGateway (poolFor f) f.maxPacketSize,
          Event.bind (kindOf f.reusePort) "tcp" f.clientAddr (BindResult.ok b),
          Event.logPrintf ("setup client listener at - " ++ b),
          Event.goServeClients ⟨kindOf f.reusePort, "tcp", f.clientAddr, b⟩
            f.clientMaxConn f.clientBufferSize f.clientSendChanSize
            f.clientPingInterval,
          Event.bind (kindOf f.reusePort) "tcp" f.serverAddr (BindResult.ok c),
          Event.logPrintf ("setup server listener at - " ++ c),
          Event.goServeServers ⟨kindOf f.reusePort, "tcp", f.serverAddr, c⟩
            f.serverAuthKey f.serverAuthTimeout f.serverBufferSize
            f.serverSendChanSize f.serverPingInterval,
          Event.shell "fastway"] := by
    intro b c
    simp [setupEvents, clientUp, serverUp, listenOk, clientLaunch, serverLaunch]
  rcases run_cases_world w f with ⟨e, w1, h⟩ | ⟨b, e, w1, w2, h⟩ |
    ⟨b, c, w1, w2, w3, h⟩ | ⟨b, c, w1, w2, w3, h⟩ <;>
    rw [h] at hab ⊢ <;> refine ⟨?_, ?_, ?_, ?_, ?_, ?_⟩
  -- the client bind failed
  · intro hok
    obtain ⟨x, hx, hxf⟩ := List.any_eq_true.1 hab.symm
    rw [hok x hx] at hxf
    cases hxf
  · intro hb _
    obtain ⟨b, hb⟩ := hb (setupEvents f) (kindOf f.reusePort) "tcp" f.clientAddr
    rw [hb] at w1
    cases w1
  · simp [List.count_append, hc0, listenErr, List.count_cons]
  · simp [mem_setupEvents, listenErr]
  · simp [mem_setupEvents, listenErr]
  · intro _
    simp [mem_setupEvents, listenErr]
  -- the server bind failed
  · intro hok
    obtain ⟨x, hx, hxf⟩ := List.any_eq_true.1 hab.symm
    rw [hok x hx] at hxf
    cases hxf
  · intro hb _
    obtain ⟨c, hc⟩ := hb (setupEvents f ++ clientUp f b) (kindOf f.reusePort) "tcp"
      f.serverAddr
    rw [hc] at w2
    cases w2
  · simp [List.count_append, hc0, listenErr, clientUp, listenOk, clientLaunch,
      List.count_cons]
  · simp [mem_setupEvents, listenErr, clientUp, listenOk, clientLaunch]
  · simp [mem_setupEvents, listenErr, clientUp, listenOk, clientLaunch]
  · intro _
    simp [mem_setupEvents, listenErr, clientUp, listenOk, clientLaunch]
  -- both binds succeeded, the shell never returns
  · intro _
    refine ⟨poolEvents f ++ warnEvents f, poolFor f, b, c, _, before_gateway_isSetup f,
      rfl, ?_⟩
    rw [← hmid b c, w3]
    simp
  · intro _ hs
    rw [hs] at w3
    cases w3
  · simp [List.count_append, hc0, clientUp, serverUp, listenOk, clientLaunch,
      serverLaunch, List.count_cons]
  · simp [mem_setupEvents, clientUp, serverUp, listenOk, clientLaunch, serverLaunch]
  · simp [mem_setupEvents, clientUp, serverUp, listenOk, clientLaunch, serverLaunch]
  · intro hf
    rw [← List.any_eq_true, ← hab] at hf
    cases hf
  -- both binds succeeded, the shell returned
  · intro _
    refine ⟨poolEvents f ++ warnEvents f, poolFor f, b, c, _, before_gateway_isSetup f,
      rfl, ?_⟩
    rw [← hmid b c, w3]
    simp [List.count_append, hc0, clientUp, serverUp, listenOk, clientLaunch,
      serverLaunch, List.count_cons]
  · intro _ _
    refine ⟨rfl, by simp [List.count_append, hc0, clientUp, serverUp, listenOk,
      clientLaunch, serverLaunch, List.count_cons],
      setupEvents f ++ clientUp f b ++ serverUp f c, rfl⟩
  · simp [List.count_append, hc0, clientUp, serverUp, listenOk, clientLaunch,
      serverLaunch, List.count_cons]
  · simp
  · intro _
    refine ⟨by simp [List.count_append, hc0, clientUp, serverUp, listenOk,
      clientLaunch, serverLaunch, List.count_cons],
      setupEvents f ++ clientUp f b ++ serverUp f c, rfl, ?_⟩
    simp [mem_setupEvents, clientUp, serverUp, listenOk, clientLaunch, serverLaunch]
  · intro hf
    rw [← List.any_eq_true, ← hab] at hf
    cases hf

/-- The statement C9 on the defaults in a world where every bind succeeds
and the shell returns: `main` returns, and `Stop` is called once, last,
right after the shell. -/
theorem effects_in_order_witness :
    (run World.allOk defaultFlags).outcome = Outcome.returned ∧
    (run World.allOk defaultFlags).trace.count Event.stop = 1 ∧
    ∃ pre, (run World.allOk defaultFlags).trace =
      pre ++ [Event.shell "fastway", Event.shellReturned, Event.stop] :=
  (effects_in_order World.allOk defaultFlags).2.1
    (fun _ _ _ a => ⟨a, rfl⟩) (fun _ => rfl)

/-- C10: `listen` makes exactly one bind attempt, on the network `tcp` and
the address given, through the reuse-port constructor if and only if its
argument `reuse` is true and through `net.Listen` otherwise, and the
listener it returns is of that kind, on that address.  In every run `main`
attempts the client bind with the kind the flag `ReusePort` selects, and
gets the answer of the world; when that bind succeeds it attempts the server
bind with the same kind, and these are all the bind attempts; when no bind
fails both `ServeClients` and `ServeServers` are launched, each on a
listener of the kind the flag selects.  Every bind attempt and every
launched listener of a run is of the reuse-port kind exactly when the flag
is set, so the client and the server listener are of the same kind; the
flag is off by default. -/
theorem listener_kind_follows_flag (w : World) (f : Flags) :
    (∀ (who addr : String) (reuse : Bool) (tr : List Event),
      ∃ r post,
        (listen who addr reuse w tr).trace =
          tr ++ Event.bind
            (if reuse then ListenerKind.reusePort else ListenerKind.plain)
            "tcp" addr r :: post ∧
        post.all (fun e => !e.isBind) = true ∧
        ∀ l tr1, listen who addr reuse w tr = Res.ok l tr1 →
          (l.kind = ListenerKind.reusePort ↔ reuse = true) ∧
          l.network = "tcp" ∧ l.addr = addr) ∧
    (∃ pre post,
      pre.all (fun e => !e.isBind) = true ∧
      (run w f).trace = pre ++ Event.bind
        (if f.reusePort then ListenerKind.reusePort else ListenerKind.plain)
        "tcp" f.clientAddr
        (w.bind pre
          (if f.reusePort then ListenerKind.reusePort else ListenerKind.plain)
          "tcp" f.clientAddr) :: post) ∧
    ((∃ e, (run w f).trace.filter Event.isBind =
        [Event.bind
          (if f.reusePort then ListenerKind.reusePort else ListenerKind.plain)
          "tcp" f.clientAddr (BindResult.err e)]) ∨
      (∃ b r, (run w f).trace.filter Event.isBind =
        [Event.bind
          (if f.reusePort then ListenerKind.reusePort else ListenerKind.plain)
          "tcp" f.clientAddr (BindResult.ok b),
        Event.bind
          (if f.reusePort then ListenerKind.reusePort else ListenerKind.plain)
          "tcp" f.serverAddr r])) ∧
    ((∀ e ∈ (run w f).trace, e.isBindFailure = false) →
      ∃ b c,
        Event.goServeClients
          ⟨if f.reusePort then ListenerKind.reusePort else ListenerKind.plain,
            "tcp", f.clientAddr, b⟩
          f.clientMaxConn f.clientBufferSize f.clientSendChanSize
          f.clientPingInterval ∈ (run w f).trace ∧
        Event.goServeServers
          ⟨if f.reusePort then ListenerKind.reusePort else ListenerKind.plain,
            "tcp", f.serverAddr, c⟩
          f.serverAuthKey f.serverAuthTimeout f.serverBufferSize
          f.serverSendChanSize f.serverPingInterval ∈ (run w f).trace) ∧
    (∀ k n a r, Event.bind k n a r ∈ (run w f).trace →
      (k = ListenerKind.reusePort ↔ f.reusePort = true) ∧ n = "tcp") ∧
    (∀ l a b c d, Event.goServeClients l a b c d ∈ (run w f).trace →
      (l.kind = ListenerKind.reusePort ↔ f.reusePort = true)) ∧
    (∀ l k a b c d, Event.goServeServers l k a b c d ∈ (run w f).trace →
      (l.kind = ListenerKind.reusePort ↔ f.reusePort = true)) ∧
    (∀ l a b c d l1 k1 a1 b1 c1 d1,
      Event.goServeClients l a b c d ∈ (run w f).trace →
      Event.goServeServers l1 k1 a1 b1 c1 d1 ∈ (run w f).trace →
      l.kind = l1.kind) ∧
    defaultFlags.reusePort = false := by
  have hcl : ∀ l a b c d, Event.goServeClients l a b c d ∈ (run w f).trace →
      l.kind = kindOf f.reusePort := by
    intro l a b c d h
    obtain ⟨x, hx, -⟩ := mem_trace_serveClients w f _ h ⟨l, a, b, c, d, rfl⟩
    simp only [clientLaunch, Event.goServeClients.injEq] at hx
    rw [hx.1]
  have hsv : ∀ l k a b c d, Event.goServeServers l k a b c d ∈ (run w f).trace →
      l.kind = kindOf f.reusePort := by
    intro l k a b c d h
    obtain ⟨x, hx, -⟩ := mem_trace_serveServers w f _ h ⟨l, k, a, b, c, d, rfl⟩
    simp only [serverLaunch, Event.goServeServers.injEq] at hx
    rw [hx.1]
  have hab := aborted_iff_any w f
  refine ⟨?_, ?_, ?_, ?_, ?_, ?_, ?_, ?_, rfl⟩
  · intro who addr reuse tr
    rw [listen_eq]
    cases hb : w.bind tr (kindOf reuse) "tcp" addr with
    | ok b =>
      refine ⟨BindResult.ok b,
        [Event.logPrintf ("setup " ++ who ++ " listener at - " ++ b)], ?_, rfl, ?_⟩
      · simp [Res.trace, kindOf]
      · intro l tr1 h
        cases h
        exact ⟨kindOf_eq_reusePort reuse, rfl, rfl⟩
    | err e =>
      refine ⟨BindResult.err e,
        [Event.logFatalf
          ("setup " ++ who ++ " listener at " ++ addr ++ " failed - " ++ e)],
        ?_, rfl, ?_⟩
      · simp [Res.trace, kindOf]
      · intro l tr1 h
        cases h
  · change ∃ pre post, pre.all (fun e => !e.isBind) = true ∧
      (run w f).trace = pre ++ Event.bind (kindOf f.reusePort) "tcp" f.clientAddr
        (w.bind pre (kindOf f.reusePort) "tcp" f.clientAddr) :: post
    rcases run_cases_world w f with ⟨e, w1, h⟩ | ⟨b, e, w1, w2, h⟩ |
      ⟨b, c, w1, w2, w3, h⟩ | ⟨b, c, w1, w2, w3, h⟩ <;> rw [h]
    · refine ⟨setupEvents f, [Event.logFatalf ("setup " ++ "client" ++
        " listener at " ++ f.clientAddr ++ " failed - " ++ e)],
        setup_all_not_bind f, ?_⟩
      rw [w1]
      simp [listenErr]
    · refine ⟨setupEvents f,
        [Event.logPrintf ("setup " ++ "client" ++ " listener at - " ++ b),
          clientLaunch f b] ++
          listenErr "server" f.serverAddr (kindOf f.reusePort) e,
        setup_all_not_bind f, ?_⟩
      rw [w1]
      simp [clientUp, listenOk]
    · refine ⟨setupEvents f,
        [Event.logPrintf ("setup " ++ "client" ++ " listener at - " ++ b),
          clientLaunch f b] ++ serverUp f c ++ [Event.shell "fastway"],
        setup_all_not_bind f, ?_⟩
      rw [w1]
      simp [clientUp, listenOk]
    · refine ⟨setupEvents f,
        [Event.logPrintf ("setup " ++ "client" ++ " listener at - " ++ b),
          clientLaunch f b] ++ serverUp f c ++
          [Event.shell "fastway", Event.shellReturned, Event.stop],
        setup_all_not_bind f, ?_⟩
      rw [w1]
      simp [clientUp, listenOk]
  · change (∃ e, (run w f).trace.filter Event.isBind =
        [Event.bind (kindOf f.reusePort) "tcp" f.clientAddr (BindResult.err e)]) ∨
      (∃ b r, (run w f).trace.filter Event.isBind =
        [Event.bind (kindOf f.reusePort) "tcp" f.clientAddr (BindResult.ok b),
          Event.bind (kindOf f.reusePort) "tcp" f.serverAddr r])
    rcases run_cases w f with ⟨e, h⟩ | ⟨b, e, h⟩ | ⟨b, c, h⟩ | ⟨b, c, h⟩ <;> rw [h]
    · exact Or.inl ⟨e, by
        simp [List.filter_append, setup_filter_bind, listenErr, List.filter_cons,
          Event.isBind]⟩
    · exact Or.inr ⟨b, BindResult.err e, by
        simp [List.filter_append, setup_filter_bind, listenErr, clientUp, listenOk,
          clientLaunch, List.filter_cons, Event.isBind]⟩
    · exact Or.inr ⟨b, BindResult.ok c, by
        simp [List.filter_append, setup_filter_bind, clientUp, serverUp, listenOk,
          clientLaunch, serverLaunch, List.filter_cons, Event.isBind]⟩
    · exact Or.inr ⟨b, BindResult.ok c, by
        simp [List.filter_append, setup_filter_bind, clientUp, serverUp, listenOk,
          clientLaunch, serverLaunch, List.filter_cons, Event.isBind]⟩
  · intro hok
    change ∃ b c, clientLaunch f b ∈ (run w f).trace ∧
      serverLaunch f c ∈ (run w f).trace
    have ha : (run w f).outcome.aborted = false := by
      rw [hab, List.any_eq_false]
      intro e he
      simp [hok e he]
    rcases run_cases w f with ⟨e, h⟩ | ⟨b, e, h⟩ | ⟨b, c, h⟩ | ⟨b, c, h⟩ <;>
      rw [h] at ha ⊢
    · cases ha
    · cases ha
    · exact ⟨b, c, by simp [clientUp], by simp [serverUp]⟩
    · exact ⟨b, c, by simp [clientUp], by simp [serverUp]⟩
  · intro k n a r h
    obtain ⟨rfl, rfl⟩ := mem_trace_bind w f k n a r h
    exact ⟨kindOf_eq_reusePort _, rfl⟩
  · intro l a b c d h
    rw [hcl l a b c d h]
    exact kindOf_eq_reusePort _
  · intro l k a b c d h
    rw [hsv l k a b c d h]
    exact kindOf_eq_reusePort _
  · intro l a b c d l1 k1 a1 b1 c1 d1 h h1
    rw [hcl l a b c d h, hsv l1 k1 a1 b1 c1 d1 h1]

/-- The statement C10 with the flag `ReusePort` set, when every bind
succeeds: `ServeClients` and `ServeServers` are both launched, each on a
reuse-port listener. -/
theorem listener_kind_follows_flag_witness :
    ∃ b c,
      Event.goServeClients ⟨ListenerKind.reusePort, "tcp", ":0", b⟩
        8 2048 1024 30000000000 ∈ (run World.allOk flagsReuse).trace ∧
      Event.goServeServers ⟨ListenerKind.reusePort, "tcp", ":0", c⟩
        "" 3 65536 102400 30000000000 ∈ (run World.allOk flagsReuse).trace :=
  (listener_kind_follows_flag World.allOk flagsReuse).2.2.2.1 (by decide)

end Fastway
